import Mathlib

/-
Shallow embedding of the MAIA Python SDK (files maia/types.py, maia/errors.py,
maia/client.py).  The client builds HTTP requests, validates required fields
before any network call, and classifies responses into a typed error hierarchy.
Request bodies and response bodies are JSON; Python's dynamic values are
modelled by the `Json` inductive, Python `None` by `Json.null` (inside JSON
data) or `Option.none` (for typed optional fields).
-/

namespace Maia

/-- JSON values: the dynamic data exchanged with the server.  Numbers are
modelled as rationals (no arithmetic is performed on them client-side). -/
inductive Json where
  | null
  | bool (b : Bool)
  | num (q : ℚ)
  | str (s : String)
  | arr (items : List Json)
  | obj (fields : List (String × Json))

/-- Last-wins lookup of a key in a JSON object's field list, matching the
Python dict produced by json.loads (a later duplicate key overwrites). -/
def jlookup (fields : List (String × Json)) (k : String) : Option Json :=
  fields.foldl (fun acc p => if p.1 = k then some p.2 else acc) none

/-- Python dict.get with a default value. -/
def jget (fields : List (String × Json)) (k : String) (dflt : Json) : Json :=
  (jlookup fields k).getD dflt

/-- Python equality test of an arbitrary JSON value against a string: true
exactly when the value is that string (any non-string compares unequal,
including None). -/
def Json.eqStr : Json → String → Bool
  | .str t, s => t == s
  | _, _ => false

/-- APIError (maia/errors.py): carries the HTTP status code plus message, code
and details taken from the response body.  The latter three are JSON values
because Python stores whatever the body's fields held; an absent field is
stored as None, modelled by Json.null. -/
structure APIError where
  status_code : Nat
  message : Json
  code : Json := .null
  details : Json := .null

/-- APIError.is_not_found: status 404 or code "NOT_FOUND". -/
def APIError.is_not_found (e : APIError) : Bool :=
  e.status_code == 404 || e.code.eqStr "NOT_FOUND"

/-- APIError.is_already_exists: status 409 or code "ALREADY_EXISTS". -/
def APIError.is_already_exists (e : APIError) : Bool :=
  e.status_code == 409 || e.code.eqStr "ALREADY_EXISTS"

/-- APIError.is_invalid_input: status 400 or code "INVALID_INPUT". -/
def APIError.is_invalid_input (e : APIError) : Bool :=
  e.status_code == 400 || e.code.eqStr "INVALID_INPUT"

/-- APIError.is_server_error: status at least 500. -/
def APIError.is_server_error (e : APIError) : Bool :=
  decide (500 ≤ e.status_code)

/-- The error taxonomy rooted at MAIAError (maia/errors.py): ValidationError
carries the offending field name and a message, NetworkError a message, and
APIError the structured server failure.  NotFoundError/AlreadyExistsError are
pre-filled APIErrors (see below), so they live in the api constructor. -/
inductive MAIAError where
  | validation (field : String) (message : String)
  | network (message : String)
  | api (e : APIError)

/-- NotFoundError (maia/errors.py): an APIError pre-filled with status 404 and
code "NOT_FOUND" for a resource/id pair. -/
def NotFoundError (resource id : String) : APIError :=
  { status_code := 404
    message := .str (resource ++ " not found: " ++ id)
    code := .str "NOT_FOUND" }

/-- AlreadyExistsError (maia/errors.py): an APIError pre-filled with status 409
and code "ALREADY_EXISTS" for a resource/id pair. -/
def AlreadyExistsError (resource id : String) : APIError :=
  { status_code := 409
    message := .str (resource ++ " already exists: " ++ id)
    code := .str "ALREADY_EXISTS" }

/-- MemoryType enumeration (maia/types.py). -/
inductive MemoryType where
  | semantic
  | episodic
  | working

/-- Lowercase string tag of a MemoryType (its Python enum value). -/
def MemoryType.value : MemoryType → String
  | .semantic => "semantic"
  | .episodic => "episodic"
  | .working => "working"

/-- MemorySource enumeration (maia/types.py). -/
inductive MemorySource where
  | user
  | extracted
  | inferred
  | imported

/-- Lowercase string tag of a MemorySource (its Python enum value). -/
def MemorySource.value : MemorySource → String
  | .user => "user"
  | .extracted => "extracted"
  | .inferred => "inferred"
  | .imported => "imported"

/-- CreateMemoryInput (maia/types.py): namespace and content required, the
rest optional with default None. -/
structure CreateMemoryInput where
  «namespace» : String
  content : String
  type : Option MemoryType := none
  metadata : Option (List (String × Json)) := none
  tags : Option (List String) := none
  confidence : Option ℚ := none
  source : Option MemorySource := none

/-- UpdateMemoryInput (maia/types.py): every field optional. -/
structure UpdateMemoryInput where
  content : Option String := none
  metadata : Option (List (String × Json)) := none
  tags : Option (List String) := none
  confidence : Option ℚ := none

/-- SearchMemoriesInput (maia/types.py): every field optional. -/
structure SearchMemoriesInput where
  query : Option String := none
  «namespace» : Option String := none
  types : Option (List MemoryType) := none
  tags : Option (List String) := none
  limit : Option Int := none
  offset : Option Int := none

/-- NamespaceConfig (maia/types.py): optional budgets plus a boolean
inherit_from_parent that defaults to false (and, not being None, is never
dropped by exclude_none serialization). -/
structure NamespaceConfig where
  token_budget : Option Int := none
  max_memories : Option Int := none
  retention_days : Option Int := none
  allowed_types : Option (List MemoryType) := none
  inherit_from_parent : Bool := false
  custom_scoring : Option (List (String × ℚ)) := none

/-- CreateNamespaceInput (maia/types.py): name required, the rest optional. -/
structure CreateNamespaceInput where
  name : String
  parent : Option String := none
  template : Option String := none
  config : Option NamespaceConfig := none

/-- UpdateNamespaceInput (maia/types.py): config required. -/
structure UpdateNamespaceInput where
  config : NamespaceConfig

/-- ListOptions (maia/types.py): optional limit and offset. -/
structure ListOptions where
  limit : Option Int := none
  offset : Option Int := none

/-- GetContextInput (maia/types.py): query required, the rest optional. -/
structure GetContextInput where
  query : String
  «namespace» : Option String := none
  token_budget : Option Int := none
  system_prompt : Option String := none
  include_scores : Option Bool := none
  min_score : Option ℚ := none

/-- One key/value pair when the optional value is present, nothing when it is
absent: the exclude_none behaviour of pydantic model_dump. -/
def optField (k : String) (v : Option Json) : List (String × Json) :=
  match v with
  | some j => [(k, j)]
  | none => []

/-- model_dump(exclude_none=True) for CreateMemoryInput: fields in declaration
order, None fields omitted. -/
def CreateMemoryInput.model_dump (i : CreateMemoryInput) : Json :=
  .obj ([("namespace", .str i.«namespace»), ("content", .str i.content)]
    ++ optField "type" (i.type.map fun t => .str t.value)
    ++ optField "metadata" (i.metadata.map .obj)
    ++ optField "tags" (i.tags.map fun ts => .arr (ts.map .str))
    ++ optField "confidence" (i.confidence.map .num)
    ++ optField "source" (i.source.map fun s => .str s.value))

/-- model_dump(exclude_none=True) for UpdateMemoryInput. -/
def UpdateMemoryInput.model_dump (i : UpdateMemoryInput) : Json :=
  .obj (optField "content" (i.content.map .str)
    ++ optField "metadata" (i.metadata.map .obj)
    ++ optField "tags" (i.tags.map fun ts => .arr (ts.map .str))
    ++ optField "confidence" (i.confidence.map .num))

/-- model_dump(exclude_none=True) for SearchMemoriesInput. -/
def SearchMemoriesInput.model_dump (i : SearchMemoriesInput) : Json :=
  .obj (optField "query" (i.query.map .str)
    ++ optField "namespace" (i.«namespace».map .str)
    ++ optField "types" (i.types.map fun ts => .arr (ts.map fun t => .str t.value))
    ++ optField "tags" (i.tags.map fun ts => .arr (ts.map .str))
    ++ optField "limit" (i.limit.map fun v => .num v)
    ++ optField "offset" (i.offset.map fun v => .num v))

/-- model_dump(exclude_none=True) for NamespaceConfig (nested model, dumped
recursively by pydantic). -/
def NamespaceConfig.model_dump (i : NamespaceConfig) : Json :=
  .obj (optField "token_budget" (i.token_budget.map fun v => .num v)
    ++ optField "max_memories" (i.max_memories.map fun v => .num v)
    ++ optField "retention_days" (i.retention_days.map fun v => .num v)
    ++ optField "allowed_types" (i.allowed_types.map fun ts => .arr (ts.map fun t => .str t.value))
    ++ [("inherit_from_parent", .bool i.inherit_from_parent)]
    ++ optField "custom_scoring" (i.custom_scoring.map fun ps => .obj (ps.map fun p => (p.1, .num p.2))))

/-- model_dump(exclude_none=True) for CreateNamespaceInput. -/
def CreateNamespaceInput.model_dump (i : CreateNamespaceInput) : Json :=
  .obj ([("name", .str i.name)]
    ++ optField "parent" (i.parent.map .str)
    ++ optField "template" (i.template.map .str)
    ++ optField "config" (i.config.map fun c => c.model_dump))

/-- model_dump(exclude_none=True) for UpdateNamespaceInput. -/
def UpdateNamespaceInput.model_dump (i : UpdateNamespaceInput) : Json :=
  .obj [("config", i.config.model_dump)]

/-- model_dump(exclude_none=True) for GetContextInput. -/
def GetContextInput.model_dump (i : GetContextInput) : Json :=
  .obj ([("query", .str i.query)]
    ++ optField "namespace" (i.«namespace».map .str)
    ++ optField "token_budget" (i.token_budget.map fun v => .num v)
    ++ optField "system_prompt" (i.system_prompt.map .str)
    ++ optField "include_scores" (i.include_scores.map .bool)
    ++ optField "min_score" (i.min_score.map .num))

/-- Bytes urllib.parse.quote never escapes regardless of the safe argument:
ASCII letters, digits, underscore, period, hyphen, tilde. -/
def alwaysSafeByte (n : Nat) : Bool :=
  (65 ≤ n && n ≤ 90) || (97 ≤ n && n ≤ 122) || (48 ≤ n && n ≤ 57) ||
  n == 95 || n == 46 || n == 45 || n == 126

/-- Uppercase hexadecimal digit for a value below 16. -/
def hexUpper (n : Nat) : Char :=
  if n < 10 then Char.ofNat (48 + n) else Char.ofNat (55 + n)

/-- Characters one byte contributes to the quoted string: the byte itself when
always safe, otherwise a percent escape with two uppercase hex digits. -/
def quoteByte (b : UInt8) : List Char :=
  if alwaysSafeByte b.toNat then [Char.ofNat b.toNat]
  else ['%', hexUpper (b.toNat / 16), hexUpper (b.toNat % 16)]

/-- urllib.parse.quote(s, safe=""): UTF-8 encode the string and percent-escape
every byte outside the always-safe set (so "/" is escaped too). -/
def pyQuote (s : String) : String :=
  String.mk (s.data.flatMap fun c => (String.utf8EncodeChar c).flatMap quoteByte)

/-- Python base_url.rstrip("/"): remove every trailing slash character. -/
def pyRstripSlash (s : String) : String :=
  String.mk ((s.data.reverse.dropWhile fun c => c == '/').reverse)

/-- An HTTP request as handed to the transport: method, path relative to the
base URL, optional JSON body, optional query parameters. -/
structure Request where
  method : String
  path : String
  json : Option Json := none
  params : Option (List (String × Int)) := none

/-- An HTTP response as seen by _request: status code, raw body text, and the
result of parsing the body as JSON (none when the body is not valid JSON; an
empty body is never valid JSON). -/
structure HttpResponse where
  status_code : Nat
  text : String
  json : Option Json

/-- Outcome of one transport attempt: either httpx raises a RequestError
before a response is received, or a response arrives. -/
inductive TransportOutcome where
  | failure (msg : String)
  | response (r : HttpResponse)

/-- The transport: what the HTTP client does with a request. -/
abbrev Transport := Request → TransportOutcome

/-- Outcome of a client call at the Python level: a typed MAIA error, or an
uncaught builtin Python exception escaping from _request (AttributeError when
dict.get is called on a non-dict error body; ValueError when a non-empty
success body is not valid JSON). -/
inductive PyFailure where
  | maia (e : MAIAError)
  | attributeError
  | valueError

/-- Module constant DEFAULT_BASE_URL. -/
def DEFAULT_BASE_URL : String := "http://localhost:8080"

/-- Module constant DEFAULT_TIMEOUT (seconds). -/
def DEFAULT_TIMEOUT : ℚ := 30

namespace MAIAClient

/-- Client state built by MAIAClient.__init__: the stored base URL (the input
with trailing slashes stripped) plus the timeout and custom headers handed to
the underlying httpx.Client. -/
structure State where
  base_url : String
  timeout : ℚ
  headers : List (String × String)

/-- MAIAClient.__init__. -/
def init (base_url : String) (timeout : ℚ)
    (headers : Option (List (String × String))) : State :=
  { base_url := pyRstripSlash base_url
    timeout := timeout
    headers := headers.getD [] }

/-- Response half of MAIAClient._request.  Status at least 400: parse the body
as JSON; a dict body yields an APIError built with dict.get on error/code/
details (default message "HTTP status"); a body that parses to a non-dict JSON
value makes data.get raise AttributeError (only ValueError is caught); an
unparseable body yields an APIError whose message is the raw text, or "HTTP
status" when the text is empty.  Status below 400: an empty body returns None,
a non-empty body is returned parsed as JSON (an unparseable one raises the
ValueError from response.json, uncaught on this path). -/
def handle_response (r : HttpResponse) : Except PyFailure (Option Json) :=
  if 400 ≤ r.status_code then
    match r.json with
    | some data =>
      match data with
      | .obj fields =>
        .error (.maia (.api {
          status_code := r.status_code
          message := jget fields "error" (.str ("HTTP " ++ toString r.status_code))
          code := jget fields "code" .null
          details := jget fields "details" .null }))
      | _ => .error .attributeError
    | none =>
      .error (.maia (.api {
        status_code := r.status_code
        message := .str (if r.text = "" then "HTTP " ++ toString r.status_code else r.text)
        code := .null
        details := .null }))
  else
    if r.text = "" then .ok none
    else
      match r.json with
      | some j => .ok (some j)
      | none => .error .valueError

/-- MAIAClient._request: one transport attempt; an httpx.RequestError becomes
a NetworkError, a response is classified by handle_response. -/
def request (transport : Transport) (req : Request) : Except PyFailure (Option Json) :=
  match transport req with
  | .failure msg => .error (.maia (.network ("Request failed: " ++ msg)))
  | .response r => handle_response r

/-- Run a built operation: a validation failure returns before the transport
is touched (empty request trace); otherwise exactly one transport attempt is
made.  The second component is the list of requests actually issued. -/
def run (transport : Transport) (rq : Except MAIAError Request) :
    Except PyFailure (Option Json) × List Request :=
  match rq with
  | .error e => (.error (.maia e), [])
  | .ok req => (request transport req, [req])

/-- MAIAClient.health request. -/
def health_req : Request := { method := "GET", path := "/health" }

/-- MAIAClient.ready request. -/
def ready_req : Request := { method := "GET", path := "/ready" }

/-- MAIAClient.stats request. -/
def stats_req : Request := { method := "GET", path := "/v1/stats" }

/-- MAIAClient.create_memory up to the transport boundary: validation, then
the request that is issued. -/
def create_memory_req (input : CreateMemoryInput) : Except MAIAError Request :=
  if input.«namespace» = "" then
    .error (.validation "namespace" "namespace is required")
  else if input.content = "" then
    .error (.validation "content" "content is required")
  else
    .ok { method := "POST", path := "/v1/memories", json := some input.model_dump }

/-- MAIAClient.get_memory up to the transport boundary. -/
def get_memory_req (id : String) : Except MAIAError Request :=
  if id = "" then
    .error (.validation "id" "id is required")
  else
    .ok { method := "GET", path := "/v1/memories/" ++ pyQuote id }

/-- MAIAClient.update_memory up to the transport boundary. -/
def update_memory_req (id : String) (input : UpdateMemoryInput) : Except MAIAError Request :=
  if id = "" then
    .error (.validation "id" "id is required")
  else
    .ok { method := "PUT", path := "/v1/memories/" ++ pyQuote id, json := some input.model_dump }

/-- MAIAClient.delete_memory up to the transport boundary. -/
def delete_memory_req (id : String) : Except MAIAError Request :=
  if id = "" then
    .error (.validation "id" "id is required")
  else
    .ok { method := "DELETE", path := "/v1/memories/" ++ pyQuote id }

/-- MAIAClient.search_memories up to the transport boundary: an absent input
is replaced by SearchMemoriesInput() with all defaults. -/
def search_memories_req (input : Option SearchMemoriesInput) : Request :=
  { method := "POST", path := "/v1/memories/search"
    json := some (input.getD {}).model_dump }

/-- MAIAClient.create_namespace up to the transport boundary. -/
def create_namespace_req (input : CreateNamespaceInput) : Except MAIAError Request :=
  if input.name = "" then
    .error (.validation "name" "name is required")
  else
    .ok { method := "POST", path := "/v1/namespaces", json := some input.model_dump }

/-- MAIAClient.get_namespace up to the transport boundary. -/
def get_namespace_req (id_or_name : String) : Except MAIAError Request :=
  if id_or_name = "" then
    .error (.validation "id_or_name" "id or name is required")
  else
    .ok { method := "GET", path := "/v1/namespaces/" ++ pyQuote id_or_name }

/-- MAIAClient.update_namespace up to the transport boundary. -/
def update_namespace_req (id : String) (input : UpdateNamespaceInput) : Except MAIAError Request :=
  if id = "" then
    .error (.validation "id" "id is required")
  else
    .ok { method := "PUT", path := "/v1/namespaces/" ++ pyQuote id, json := some input.model_dump }

/-- MAIAClient.delete_namespace up to the transport boundary. -/
def delete_namespace_req (id : String) : Except MAIAError Request :=
  if id = "" then
    .error (.validation "id" "id is required")
  else
    .ok { method := "DELETE", path := "/v1/namespaces/" ++ pyQuote id }

/-- Pagination query parameters as built inside list_namespaces and
list_namespace_memories: params["limit"] set only when options is present and
options.limit is truthy (not None and non-zero), then likewise for offset. -/
def pageParams (options : Option ListOptions) : List (String × Int) :=
  match options with
  | none => []
  | some o =>
    (match o.limit with
     | some v => if v == 0 then [] else [("limit", v)]
     | none => []) ++
    (match o.offset with
     | some v => if v == 0 then [] else [("offset", v)]
     | none => [])

/-- Python "params or None": an empty dict is passed as None. -/
def orNoneParams (ps : List (String × Int)) : Option (List (String × Int)) :=
  if ps.isEmpty then none else some ps

/-- MAIAClient.list_namespaces request (no validation). -/
def list_namespaces_req (options : Option ListOptions) : Request :=
  { method := "GET", path := "/v1/namespaces"
    params := orNoneParams (pageParams options) }

/-- MAIAClient.list_namespace_memories up to the transport boundary. -/
def list_namespace_memories_req («namespace» : String) (options : Option ListOptions) :
    Except MAIAError Request :=
  if «namespace» = "" then
    .error (.validation "namespace" "namespace is required")
  else
    .ok { method := "GET"
          path := "/v1/namespaces/" ++ pyQuote «namespace» ++ "/memories"
          params := orNoneParams (pageParams options) }

/-- MAIAClient.get_context up to the transport boundary. -/
def get_context_req (input : GetContextInput) : Except MAIAError Request :=
  if input.query = "" then
    .error (.validation "query" "query is required")
  else
    .ok { method := "POST", path := "/v1/context", json := some input.model_dump }

/-- MAIAClient.health, run against a transport. -/
def health (t : Transport) : Except PyFailure (Option Json) × List Request :=
  run t (.ok health_req)

/-- MAIAClient.ready, run against a transport. -/
def ready (t : Transport) : Except PyFailure (Option Json) × List Request :=
  run t (.ok ready_req)

/-- MAIAClient.stats, run against a transport. -/
def stats (t : Transport) : Except PyFailure (Option Json) × List Request :=
  run t (.ok stats_req)

/-- MAIAClient.create_memory, run against a transport. -/
def create_memory (t : Transport) (input : CreateMemoryInput) :
    Except PyFailure (Option Json) × List Request :=
  run t (create_memory_req input)

/-- MAIAClient.get_memory, run against a transport. -/
def get_memory (t : Transport) (id : String) :
    Except PyFailure (Option Json) × List Request :=
  run t (get_memory_req id)

/-- MAIAClient.update_memory, run against a transport. -/
def update_memory (t : Transport) (id : String) (input : UpdateMemoryInput) :
    Except PyFailure (Option Json) × List Request :=
  run t (update_memory_req id input)

/-- MAIAClient.delete_memory, run against a transport. -/
def delete_memory (t : Transport) (id : String) :
    Except PyFailure (Option Json) × List Request :=
  run t (delete_memory_req id)

/-- MAIAClient.search_memories, run against a transport. -/
def search_memories (t : Transport) (input : Option SearchMemoriesInput) :
    Except PyFailure (Option Json) × List Request :=
  run t (.ok (search_memories_req input))

/-- MAIAClient.create_namespace, run against a transport. -/
def create_namespace (t : Transport) (input : CreateNamespaceInput) :
    Except PyFailure (Option Json) × List Request :=
  run t (create_namespace_req input)

/-- MAIAClient.get_namespace, run against a transport. -/
def get_namespace (t : Transport) (id_or_name : String) :
    Except PyFailure (Option Json) × List Request :=
  run t (get_namespace_req id_or_name)

/-- MAIAClient.update_namespace, run against a transport. -/
def update_namespace (t : Transport) (id : String) (input : UpdateNamespaceInput) :
    Except PyFailure (Option Json) × List Request :=
  run t (update_namespace_req id input)

/-- MAIAClient.delete_namespace, run against a transport. -/
def delete_namespace (t : Transport) (id : String) :
    Except PyFailure (Option Json) × List Request :=
  run t (delete_namespace_req id)

/-- MAIAClient.list_namespaces, run against a transport. -/
def list_namespaces (t : Transport) (options : Option ListOptions) :
    Except PyFailure (Option Json) × List Request :=
  run t (.ok (list_namespaces_req options))

/-- MAIAClient.list_namespace_memories, run against a transport. -/
def list_namespace_memories (t : Transport) («namespace» : String)
    (options : Option ListOptions) : Except PyFailure (Option Json) × List Request :=
  run t (list_namespace_memories_req «namespace» options)

/-- MAIAClient.get_context, run against a transport. -/
def get_context (t : Transport) (input : GetContextInput) :
    Except PyFailure (Option Json) × List Request :=
  run t (get_context_req input)

/-- MAIAClient.remember: create_memory with type semantic, source user,
confidence 1.0. -/
def remember (t : Transport) («namespace» content : String) :
    Except PyFailure (Option Json) × List Request :=
  create_memory t
    { «namespace» := «namespace»
      content := content
      type := some .semantic
      source := some .user
      confidence := some 1 }

/-- MAIAClient.recall: get_context with the given fields passed through. -/
def «recall» (t : Transport) (query : String) («namespace» : Option String)
    (token_budget : Option Int) (system_prompt : Option String)
    (min_score : Option ℚ) (include_scores : Option Bool) :
    Except PyFailure (Option Json) × List Request :=
  get_context t
    { query := query
      «namespace» := «namespace»
      token_budget := token_budget
      system_prompt := system_prompt
      min_score := min_score
      include_scores := include_scores }

/-- MAIAClient.forget: delete_memory. -/
def forget (t : Transport) (id : String) :
    Except PyFailure (Option Json) × List Request :=
  delete_memory t id

end MAIAClient

namespace AsyncMAIAClient

/-- Client state built by AsyncMAIAClient.__init__: the stored base URL (the
input with trailing slashes stripped) plus the timeout and custom headers
handed to the underlying httpx.AsyncClient. -/
structure State where
  base_url : String
  timeout : ℚ
  headers : List (String × String)

/-- AsyncMAIAClient.__init__. -/
def init (base_url : String) (timeout : ℚ)
    (headers : Option (List (String × String))) : State :=
  { base_url := pyRstripSlash base_url
    timeout := timeout
    headers := headers.getD [] }

/-- Response half of AsyncMAIAClient._request (same logic as the synchronous
client). -/
def handle_response (r : HttpResponse) : Except PyFailure (Option Json) :=
  if 400 ≤ r.status_code then
    match r.json with
    | some data =>
      match data with
      | .obj fields =>
        .error (.maia (.api {
          status_code := r.status_code
          message := jget fields "error" (.str ("HTTP " ++ toString r.status_code))
          code := jget fields "code" .null
          details := jget fields "details" .null }))
      | _ => .error .attributeError
    | none =>
      .error (.maia (.api {
        status_code := r.status_code
        message := .str (if r.text = "" then "HTTP " ++ toString r.status_code else r.text)
        code := .null
        details := .null }))
  else
    if r.text = "" then .ok none
    else
      match r.json with
      | some j => .ok (some j)
      | none => .error .valueError

/-- AsyncMAIAClient._request: one awaited transport attempt. -/
def request (transport : Transport) (req : Request) : Except PyFailure (Option Json) :=
  match transport req with
  | .failure msg => .error (.maia (.network ("Request failed: " ++ msg)))
  | .response r => handle_response r

/-- Run a built async operation (validation is synchronous; the only suspension
point is the single transport attempt). -/
def run (transport : Transport) (rq : Except MAIAError Request) :
    Except PyFailure (Option Json) × List Request :=
  match rq with
  | .error e => (.error (.maia e), [])
  | .ok req => (request transport req, [req])

/-- AsyncMAIAClient.health request. -/
def health_req : Request := { method := "GET", path := "/health" }

/-- AsyncMAIAClient.ready request. -/
def ready_req : Request := { method := "GET", path := "/ready" }

/-- AsyncMAIAClient.stats request. -/
def stats_req : Request := { method := "GET", path := "/v1/stats" }

/-- AsyncMAIAClient.create_memory up to the transport boundary. -/
def create_memory_req (input : CreateMemoryInput) : Except MAIAError Request :=
  if input.«namespace» = "" then
    .error (.validation "namespace" "namespace is required")
  else if input.content = "" then
    .error (.validation "content" "content is required")
  else
    .ok { method := "POST", path := "/v1/memories", json := some input.model_dump }

/-- AsyncMAIAClient.get_memory up to the transport boundary. -/
def get_memory_req (id : String) : Except MAIAError Request :=
  if id = "" then
    .error (.validation "id" "id is required")
  else
    .ok { method := "GET", path := "/v1/memories/" ++ pyQuote id }

/-- AsyncMAIAClient.update_memory up to the transport boundary. -/
def update_memory_req (id : String) (input : UpdateMemoryInput) : Except MAIAError Request :=
  if id = "" then
    .error (.validation "id" "id is required")
  else
    .ok { method := "PUT", path := "/v1/memories/" ++ pyQuote id, json := some input.model_dump }

/-- AsyncMAIAClient.delete_memory up to the transport boundary. -/
def delete_memory_req (id : String) : Except MAIAError Request :=
  if id = "" then
    .error (.validation "id" "id is required")
  else
    .ok { method := "DELETE", path := "/v1/memories/" ++ pyQuote id }

/-- AsyncMAIAClient.search_memories up to the transport boundary. -/
def search_memories_req (input : Option SearchMemoriesInput) : Request :=
  { method := "POST", path := "/v1/memories/search"
    json := some (input.getD {}).model_dump }

/-- AsyncMAIAClient.create_namespace up to the transport boundary. -/
def create_namespace_req (input : CreateNamespaceInput) : Except MAIAError Request :=
  if input.name = "" then
    .error (.validation "name" "name is required")
  else
    .ok { method := "POST", path := "/v1/namespaces", json := some input.model_dump }

/-- AsyncMAIAClient.get_namespace up to the transport boundary. -/
def get_namespace_req (id_or_name : String) : Except MAIAError Request :=
  if id_or_name = "" then
    .error (.validation "id_or_name" "id or name is required")
  else
    .ok { method := "GET", path := "/v1/namespaces/" ++ pyQuote id_or_name }

/-- AsyncMAIAClient.update_namespace up to the transport boundary. -/
def update_namespace_req (id : String) (input : UpdateNamespaceInput) : Except MAIAError Request :=
  if id = "" then
    .error (.validation "id" "id is required")
  else
    .ok { method := "PUT", path := "/v1/namespaces/" ++ pyQuote id, json := some input.model_dump }

/-- AsyncMAIAClient.delete_namespace up to the transport boundary. -/
def delete_namespace_req (id : String) : Except MAIAError Request :=
  if id = "" then
    .error (.validation "id" "id is required")
  else
    .ok { method := "DELETE", path := "/v1/namespaces/" ++ pyQuote id }

/-- Pagination query parameters as built inside the async list operations. -/
def pageParams (options : Option ListOptions) : List (String × Int) :=
  match options with
  | none => []
  | some o =>
    (match o.limit with
     | some v => if v == 0 then [] else [("limit", v)]
     | none => []) ++
    (match o.offset with
     | some v => if v == 0 then [] else [("offset", v)]
     | none => [])

/-- Python "params or None" in the async client. -/
def orNoneParams (ps : List (String × Int)) : Option (List (String × Int)) :=
  if ps.isEmpty then none else some ps

/-- AsyncMAIAClient.list_namespaces request (no validation). -/
def list_namespaces_req (options : Option ListOptions) : Request :=
  { method := "GET", path := "/v1/namespaces"
    params := orNoneParams (pageParams options) }

/-- AsyncMAIAClient.list_namespace_memories up to the transport boundary. -/
def list_namespace_memories_req («namespace» : String) (options : Option ListOptions) :
    Except MAIAError Request :=
  if «namespace» = "" then
    .error (.validation "namespace" "namespace is required")
  else
    .ok { method := "GET"
          path := "/v1/namespaces/" ++ pyQuote «namespace» ++ "/memories"
          params := orNoneParams (pageParams options) }

/-- AsyncMAIAClient.get_context up to the transport boundary. -/
def get_context_req (input : GetContextInput) : Except MAIAError Request :=
  if input.query = "" then
    .error (.validation "query" "query is required")
  else
    .ok { method := "POST", path := "/v1/context", json := some input.model_dump }

/-- AsyncMAIAClient.health, run against a transport. -/
def health (t : Transport) : Except PyFailure (Option Json) × List Request :=
  run t (.ok health_req)

/-- AsyncMAIAClient.ready, run against a transport. -/
def ready (t : Transport) : Except PyFailure (Option Json) × List Request :=
  run t (.ok ready_req)

/-- AsyncMAIAClient.stats, run against a transport. -/
def stats (t : Transport) : Except PyFailure (Option Json) × List Request :=
  run t (.ok stats_req)

/-- AsyncMAIAClient.create_memory, run against a transport. -/
def create_memory (t : Transport) (input : CreateMemoryInput) :
    Except PyFailure (Option Json) × List Request :=
  run t (create_memory_req input)

/-- AsyncMAIAClient.get_memory, run against a transport. -/
def get_memory (t : Transport) (id : String) :
    Except PyFailure (Option Json) × List Request :=
  run t (get_memory_req id)

/-- AsyncMAIAClient.update_memory, run against a transport. -/
def update_memory (t : Transport) (id : String) (input : UpdateMemoryInput) :
    Except PyFailure (Option Json) × List Request :=
  run t (update_memory_req id input)

/-- AsyncMAIAClient.delete_memory, run against a transport. -/
def delete_memory (t : Transport) (id : String) :
    Except PyFailure (Option Json) × List Request :=
  run t (delete_memory_req id)

/-- AsyncMAIAClient.search_memories, run against a transport. -/
def search_memories (t : Transport) (input : Option SearchMemoriesInput) :
    Except PyFailure (Option Json) × List Request :=
  run t (.ok (search_memories_req input))

/-- AsyncMAIAClient.create_namespace, run against a transport. -/
def create_namespace (t : Transport) (input : CreateNamespaceInput) :
    Except PyFailure (Option Json) × List Request :=
  run t (create_namespace_req input)

/-- AsyncMAIAClient.get_namespace, run against a transport. -/
def get_namespace (t : Transport) (id_or_name : String) :
    Except PyFailure (Option Json) × List Request :=
  run t (get_namespace_req id_or_name)

/-- AsyncMAIAClient.update_namespace, run against a transport. -/
def update_namespace (t : Transport) (id : String) (input : UpdateNamespaceInput) :
    Except PyFailure (Option Json) × List Request :=
  run t (update_namespace_req id input)

/-- AsyncMAIAClient.delete_namespace, run against a transport. -/
def delete_namespace (t : Transport) (id : String) :
    Except PyFailure (Option Json) × List Request :=
  run t (delete_namespace_req id)

/-- AsyncMAIAClient.list_namespaces, run against a transport. -/
def list_namespaces (t : Transport) (options : Option ListOptions) :
    Except PyFailure (Option Json) × List Request :=
  run t (.ok (list_namespaces_req options))

/-- AsyncMAIAClient.list_namespace_memories, run against a transport. -/
def list_namespace_memories (t : Transport) («namespace» : String)
    (options : Option ListOptions) : Except PyFailure (Option Json) × List Request :=
  run t (list_namespace_memories_req «namespace» options)

/-- AsyncMAIAClient.get_context, run against a transport. -/
def get_context (t : Transport) (input : GetContextInput) :
    Except PyFailure (Option Json) × List Request :=
  run t (get_context_req input)

/-- AsyncMAIAClient.remember: create_memory with type semantic, source user,
confidence 1.0. -/
def remember (t : Transport) («namespace» content : String) :
    Except PyFailure (Option Json) × List Request :=
  create_memory t
    { «namespace» := «namespace»
      content := content
      type := some .semantic
      source := some .user
      confidence := some 1 }

/-- AsyncMAIAClient.recall: get_context with the given fields passed through. -/
def «recall» (t : Transport) (query : String) («namespace» : Option String)
    (token_budget : Option Int) (system_prompt : Option String)
    (min_score : Option ℚ) (include_scores : Option Bool) :
    Except PyFailure (Option Json) × List Request :=
  get_context t
    { query := query
      «namespace» := «namespace»
      token_budget := token_budget
      system_prompt := system_prompt
      min_score := min_score
      include_scores := include_scores }

/-- AsyncMAIAClient.forget: delete_memory. -/
def forget (t : Transport) (id : String) :
    Except PyFailure (Option Json) × List Request :=
  delete_memory t id

end AsyncMAIAClient

/-- Helper: Json.eqStr answers true exactly on the equal string. -/
lemma Json.eqStr_iff (j : Json) (s : String) : j.eqStr s = true ↔ j = .str s := by
  cases j <;> simp [Json.eqStr]

/-- Helper: the head of a dropWhile run never satisfies the predicate. -/
lemma head_dropWhile_false {α : Type} (p : α → Bool) :
    ∀ (l : List α) (a : α), (l.dropWhile p).head? = some a → p a = false := by
  intro l
  induction l with
  | nil => intro a h; simp [List.dropWhile] at h
  | cons x xs ih =>
    intro a h
    by_cases hx : p x = true
    · exact ih a (by simpa [List.dropWhile, hx] using h)
    · have hx' : p x = false := by simpa using hx
      simp [List.dropWhile, hx'] at h
      simpa [h] using hx'

/-- Helper: pyRstripSlash removes exactly the trailing slashes: the input is
the result followed by some number of slashes. -/
lemma pyRstripSlash_spec (s : String) :
    ∃ k, s.data = (pyRstripSlash s).data ++ List.replicate k '/' := by
  obtain ⟨k, htw⟩ :
      ∃ k, (s.data.reverse.takeWhile fun c => c == '/') = List.replicate k '/' :=
    ⟨_, List.eq_replicate_of_mem (fun b hb => by simpa using List.mem_takeWhile_imp hb)⟩
  refine ⟨k, ?_⟩
  have hsplit := List.takeWhile_append_dropWhile (fun c => c == '/') s.data.reverse
  have hmain : s.data =
      (s.data.reverse.dropWhile fun c => c == '/').reverse ++
        (s.data.reverse.takeWhile fun c => c == '/').reverse := by
    conv_lhs => rw [← List.reverse_reverse s.data, ← hsplit]
    rw [List.reverse_append]
  rw [hmain, htw, List.reverse_replicate]
  rfl

/-- Helper: the result of pyRstripSlash does not end in a slash. -/
lemma pyRstripSlash_no_trailing (s : String) :
    (pyRstripSlash s).data.getLast? ≠ some '/' := by
  intro h
  have h' : ((s.data.reverse.dropWhile fun c => c == '/').reverse).getLast? = some '/' := h
  rw [List.getLast?_reverse] at h'
  have := head_dropWhile_false (fun c => c == '/') _ _ h'
  simp at this

/-- C1: every client operation with a required string field raises a
ValidationError whose field attribute names exactly that field when called
with that field empty, and no HTTP request is issued: the result is the same
for every transport and the trace of issued requests is empty. -/
theorem claim_C1 (t : Transport) :
    (∀ i : CreateMemoryInput, i.«namespace» = "" →
      MAIAClient.create_memory t i =
        (.error (.maia (.validation "namespace" "namespace is required")), [])) ∧
    (∀ i : CreateMemoryInput, i.«namespace» ≠ "" → i.content = "" →
      MAIAClient.create_memory t i =
        (.error (.maia (.validation "content" "content is required")), [])) ∧
    (MAIAClient.get_memory t "" =
      (.error (.maia (.validation "id" "id is required")), [])) ∧
    (∀ i : UpdateMemoryInput, MAIAClient.update_memory t "" i =
      (.error (.maia (.validation "id" "id is required")), [])) ∧
    (MAIAClient.delete_memory t "" =
      (.error (.maia (.validation "id" "id is required")), [])) ∧
    (∀ i : CreateNamespaceInput, i.name = "" →
      MAIAClient.create_namespace t i =
        (.error (.maia (.validation "name" "name is required")), [])) ∧
    (MAIAClient.get_namespace t "" =
      (.error (.maia (.validation "id_or_name" "id or name is required")), [])) ∧
    (∀ i : UpdateNamespaceInput, MAIAClient.update_namespace t "" i =
      (.error (.maia (.validation "id" "id is required")), [])) ∧
    (MAIAClient.delete_namespace t "" =
      (.error (.maia (.validation "id" "id is required")), [])) ∧
    (∀ o : Option ListOptions, MAIAClient.list_namespace_memories t "" o =
      (.error (.maia (.validation "namespace" "namespace is required")), [])) ∧
    (∀ i : GetContextInput, i.query = "" →
      MAIAClient.get_context t i =
        (.error (.maia (.validation "query" "query is required")), [])) := by
  refine ⟨?_, ?_, ?_, ?_, ?_, ?_, ?_, ?_, ?_, ?_, ?_⟩
  · intro i h
    simp [MAIAClient.create_memory, MAIAClient.run, MAIAClient.create_memory_req, h]
  · intro i h1 h2
    simp [MAIAClient.create_memory, MAIAClient.run, MAIAClient.create_memory_req, h1, h2]
  · simp [MAIAClient.get_memory, MAIAClient.run, MAIAClient.get_memory_req]
  · intro i
    simp [MAIAClient.update_memory, MAIAClient.run, MAIAClient.update_memory_req]
  · simp [MAIAClient.delete_memory, MAIAClient.run, MAIAClient.delete_memory_req]
  · intro i h
    simp [MAIAClient.create_namespace, MAIAClient.run, MAIAClient.create_namespace_req, h]
  · simp [MAIAClient.get_namespace, MAIAClient.run, MAIAClient.get_namespace_req]
  · intro i
    simp [MAIAClient.update_namespace, MAIAClient.run, MAIAClient.update_namespace_req]
  · simp [MAIAClient.delete_namespace, MAIAClient.run, MAIAClient.delete_namespace_req]
  · intro o
    simp [MAIAClient.list_namespace_memories, MAIAClient.run,
      MAIAClient.list_namespace_memories_req]
  · intro i h
    simp [MAIAClient.get_context, MAIAClient.run, MAIAClient.get_context_req, h]

/-- C1 witness: concrete empty-field calls hit the validation errors without
issuing a request. -/
theorem claim_C1_witness :
    (MAIAClient.create_memory (fun _ => .response { status_code := 200, text := "", json := none })
        { «namespace» := "", content := "c" } =
      (.error (.maia (.validation "namespace" "namespace is required")), [])) ∧
    (MAIAClient.create_memory (fun _ => .response { status_code := 200, text := "", json := none })
        { «namespace» := "default", content := "" } =
      (.error (.maia (.validation "content" "content is required")), [])) ∧
    (MAIAClient.get_context (fun _ => .response { status_code := 200, text := "", json := none })
        { query := "" } =
      (.error (.maia (.validation "query" "query is required")), [])) :=
  ⟨(claim_C1 _).1 _ rfl,
   (claim_C1 _).2.1 _ (by decide) rfl,
   (claim_C1 _).2.2.2.2.2.2.2.2.2.2 _ rfl⟩

/-- C2: classification of every received response by _request.  Status at
least 400 with a JSON-object body raises APIError with message from the
body's error field (default "HTTP status") and code/details from the
corresponding optional fields; status at least 400 with a body that is not
valid JSON raises APIError with the raw text as message, or "HTTP status"
when the body is empty; status below 400 returns the parsed body when
non-empty and a null result otherwise; and every call that reaches the
transport makes exactly one request attempt. -/
theorem claim_C2 (r : HttpResponse) :
    (∀ fields, 400 ≤ r.status_code → r.json = some (.obj fields) →
      ∃ e : APIError, MAIAClient.handle_response r = .error (.maia (.api e)) ∧
        e.status_code = r.status_code ∧
        (∀ m, jlookup fields "error" = some m → e.message = m) ∧
        (jlookup fields "error" = none →
          e.message = .str ("HTTP " ++ toString r.status_code)) ∧
        e.code = (jlookup fields "code").getD .null ∧
        e.details = (jlookup fields "details").getD .null) ∧
    (400 ≤ r.status_code → r.json = none → r.text ≠ "" →
      MAIAClient.handle_response r =
        .error (.maia (.api { status_code := r.status_code, message := .str r.text }))) ∧
    (400 ≤ r.status_code → r.json = none → r.text = "" →
      MAIAClient.handle_response r =
        .error (.maia (.api { status_code := r.status_code,
                              message := .str ("HTTP " ++ toString r.status_code) }))) ∧
    (r.status_code < 400 → r.text = "" → MAIAClient.handle_response r = .ok none) ∧
    (r.status_code < 400 → r.text ≠ "" → ∀ j, r.json = some j →
      MAIAClient.handle_response r = .ok (some j)) ∧
    (∀ (t : Transport) (req : Request), (MAIAClient.run t (.ok req)).2 = [req]) := by
  refine ⟨?_, ?_, ?_, ?_, ?_, fun _ _ => rfl⟩
  · intro fields h4 hj
    refine ⟨{ status_code := r.status_code
              message := jget fields "error" (.str ("HTTP " ++ toString r.status_code))
              code := jget fields "code" .null
              details := jget fields "details" .null }, ?_, rfl, ?_, ?_, rfl, rfl⟩
    · simp [MAIAClient.handle_response, h4, hj]
    · intro m hm
      simp [jget, hm]
    · intro hm
      simp [jget, hm]
  · intro h4 hj ht
    simp [MAIAClient.handle_response, h4, hj, ht]
  · intro h4 hj ht
    simp [MAIAClient.handle_response, h4, hj, ht]
  · intro h4 ht
    have hn : ¬ 400 ≤ r.status_code := by omega
    simp [MAIAClient.handle_response, hn, ht]
  · intro h4 ht j hj
    have hn : ¬ 400 ≤ r.status_code := by omega
    simp [MAIAClient.handle_response, hn, ht, hj]

/-- C2 witness: the classification applied to concrete responses of each
kind. -/
theorem claim_C2_witness :
    (∃ e : APIError,
      MAIAClient.handle_response
          { status_code := 404, text := "b",
            json := some (.obj [("error", .str "memory not found"), ("code", .str "NOT_FOUND")]) } =
        .error (.maia (.api e)) ∧
      e.status_code = 404 ∧
      (∀ m, jlookup [("error", .str "memory not found"), ("code", .str "NOT_FOUND")] "error" =
          some m → e.message = m) ∧
      (jlookup [("error", .str "memory not found"), ("code", .str "NOT_FOUND")] "error" = none →
        e.message = .str ("HTTP " ++ toString 404)) ∧
      e.code =
        (jlookup [("error", .str "memory not found"), ("code", .str "NOT_FOUND")] "code").getD .null ∧
      e.details =
        (jlookup [("error", .str "memory not found"), ("code", .str "NOT_FOUND")] "details").getD .null) ∧
    (MAIAClient.handle_response { status_code := 503, text := "Service Unavailable", json := none } =
      .error (.maia (.api { status_code := 503, message := .str "Service Unavailable" }))) ∧
    (MAIAClient.handle_response { status_code := 500, text := "", json := none } =
      .error (.maia (.api { status_code := 500, message := .str ("HTTP " ++ toString 500) }))) ∧
    (MAIAClient.handle_response { status_code := 204, text := "", json := none } = .ok none) ∧
    (MAIAClient.handle_response { status_code := 200, text := "t", json := some (.bool true) } =
      .ok (some (.bool true))) :=
  ⟨(claim_C2 _).1 _ (by norm_num) rfl,
   (claim_C2 _).2.1 (by norm_num) rfl (by decide),
   (claim_C2 _).2.2.1 (by norm_num) rfl rfl,
   (claim_C2 _).2.2.2.1 (by norm_num) rfl,
   (claim_C2 _).2.2.2.2.1 (by norm_num) (by decide) _ rfl⟩

/-- C4 (code-bug evidence): a status-400 response whose body is valid JSON
but not an object (here the array [1]) makes the error path call dict.get on
a non-dict, raising AttributeError; only ValueError is caught there, so the
surfaced failure is not part of the MAIAError taxonomy and a caller catching
the base type misses it. -/
theorem claim_C4 :
    MAIAClient.get_memory
        (fun _ => .response { status_code := 400, text := "[1]", json := some (.arr [.num 1]) })
        "x" =
      (.error .attributeError, [{ method := "GET", path := "/v1/memories/x" }]) ∧
    (∀ e : MAIAError,
      (Except.error (.maia e) : Except PyFailure (Option Json)) ≠ .error .attributeError) := by
  constructor
  · rfl
  · intro e h
    simp at h

/-- C3: the APIError classification helpers are exactly the stated
status/code disjunctions, and behave as claimed on the 404 NOT_FOUND and
bare-500 examples. -/
theorem claim_C3 (e : APIError) :
    (e.is_not_found = true ↔ (e.status_code = 404 ∨ e.code = .str "NOT_FOUND")) ∧
    (e.is_already_exists = true ↔ (e.status_code = 409 ∨ e.code = .str "ALREADY_EXISTS")) ∧
    (e.is_invalid_input = true ↔ (e.status_code = 400 ∨ e.code = .str "INVALID_INPUT")) ∧
    (e.is_server_error = true ↔ 500 ≤ e.status_code) ∧
    (APIError.is_not_found
        { status_code := 404, message := .str "memory not found", code := .str "NOT_FOUND" } = true) ∧
    (APIError.is_already_exists
        { status_code := 404, message := .str "memory not found", code := .str "NOT_FOUND" } = false) ∧
    (APIError.is_invalid_input
        { status_code := 404, message := .str "memory not found", code := .str "NOT_FOUND" } = false) ∧
    (APIError.is_server_error { status_code := 500, message := .str "boom" } = true) ∧
    (APIError.is_not_found { status_code := 500, message := .str "boom" } = false) := by
  refine ⟨?_, ?_, ?_, ?_, by decide, by decide, by decide, by decide, by decide⟩
  · simp [APIError.is_not_found, Json.eqStr_iff]
  · simp [APIError.is_already_exists, Json.eqStr_iff]
  · simp [APIError.is_invalid_input, Json.eqStr_iff]
  · simp [APIError.is_server_error]

/-- C5: the synchronous and asynchronous clients are behaviorally identical:
same stored construction state, same validation and request construction for
every operation, and the same classification of every transport outcome. -/
theorem claim_C5 :
    (∀ b tm h, (MAIAClient.init b tm h).base_url = (AsyncMAIAClient.init b tm h).base_url ∧
      (MAIAClient.init b tm h).timeout = (AsyncMAIAClient.init b tm h).timeout ∧
      (MAIAClient.init b tm h).headers = (AsyncMAIAClient.init b tm h).headers) ∧
    MAIAClient.handle_response = AsyncMAIAClient.handle_response ∧
    MAIAClient.request = AsyncMAIAClient.request ∧
    MAIAClient.health = AsyncMAIAClient.health ∧
    MAIAClient.ready = AsyncMAIAClient.ready ∧
    MAIAClient.stats = AsyncMAIAClient.stats ∧
    MAIAClient.create_memory = AsyncMAIAClient.create_memory ∧
    MAIAClient.get_memory = AsyncMAIAClient.get_memory ∧
    MAIAClient.update_memory = AsyncMAIAClient.update_memory ∧
    MAIAClient.delete_memory = AsyncMAIAClient.delete_memory ∧
    MAIAClient.search_memories = AsyncMAIAClient.search_memories ∧
    MAIAClient.create_namespace = AsyncMAIAClient.create_namespace ∧
    MAIAClient.get_namespace = AsyncMAIAClient.get_namespace ∧
    MAIAClient.update_namespace = AsyncMAIAClient.update_namespace ∧
    MAIAClient.delete_namespace = AsyncMAIAClient.delete_namespace ∧
    MAIAClient.list_namespaces = AsyncMAIAClient.list_namespaces ∧
    MAIAClient.list_namespace_memories = AsyncMAIAClient.list_namespace_memories ∧
    MAIAClient.get_context = AsyncMAIAClient.get_context ∧
    MAIAClient.remember = AsyncMAIAClient.remember ∧
    MAIAClient.«recall» = AsyncMAIAClient.«recall» ∧
    MAIAClient.forget = AsyncMAIAClient.forget :=
  ⟨fun _ _ _ => ⟨rfl, rfl, rfl⟩, rfl, rfl, rfl, rfl, rfl, rfl, rfl, rfl, rfl,
   rfl, rfl, rfl, rfl, rfl, rfl, rfl, rfl, rfl, rfl, rfl⟩

/-- C8: the convenience wrappers are exactly pre-filled calls to the base
operations, in both clients: remember is create_memory with type semantic,
source user, confidence 1.0; recall is get_context with its arguments passed
through; forget is delete_memory. -/
theorem claim_C8 (t : Transport) :
    (∀ ns content, MAIAClient.remember t ns content =
      MAIAClient.create_memory t
        { «namespace» := ns, content := content, type := some .semantic,
          source := some .user, confidence := some 1 }) ∧
    (∀ query ns tb sp ms incl, MAIAClient.«recall» t query ns tb sp ms incl =
      MAIAClient.get_context t
        { query := query, «namespace» := ns, token_budget := tb,
          system_prompt := sp, min_score := ms, include_scores := incl }) ∧
    (∀ id, MAIAClient.forget t id = MAIAClient.delete_memory t id) ∧
    (∀ ns content, AsyncMAIAClient.remember t ns content =
      AsyncMAIAClient.create_memory t
        { «namespace» := ns, content := content, type := some .semantic,
          source := some .user, confidence := some 1 }) ∧
    (∀ query ns tb sp ms incl, AsyncMAIAClient.«recall» t query ns tb sp ms incl =
      AsyncMAIAClient.get_context t
        { query := query, «namespace» := ns, token_budget := tb,
          system_prompt := sp, min_score := ms, include_scores := incl }) ∧
    (∀ id, AsyncMAIAClient.forget t id = AsyncMAIAClient.delete_memory t id) :=
  ⟨fun _ _ => rfl, fun _ _ _ _ _ _ => rfl, fun _ => rfl,
   fun _ _ => rfl, fun _ _ _ _ _ _ => rfl, fun _ => rfl⟩

/-- Helper: the value a query-parameter key carries in an optional parameter
list (none when the key is absent, or the whole list is absent). -/
def getParam (ps : Option (List (String × Int))) (k : String) : Option Int :=
  (ps.getD []).lookup k

/-- C6: for the list operations, no limit/offset query parameter is sent when
options is absent; when options is present, limit is sent exactly when
present and non-zero (with its value), likewise offset, nothing but limit and
offset is ever sent, a call with only limit 10 sends only limit 10, and
list_namespace_memories builds its parameters identically. -/
theorem claim_C6 (options : Option ListOptions) :
    (options = none → (MAIAClient.list_namespaces_req options).params = none) ∧
    (∀ o, options = some o →
      getParam (MAIAClient.list_namespaces_req options).params "limit" =
        (match o.limit with
         | some v => if v = 0 then none else some v
         | none => none) ∧
      getParam (MAIAClient.list_namespaces_req options).params "offset" =
        (match o.offset with
         | some v => if v = 0 then none else some v
         | none => none) ∧
      (∀ p ∈ (MAIAClient.list_namespaces_req options).params.getD [],
        p.1 = "limit" ∨ p.1 = "offset")) ∧
    ((MAIAClient.list_namespaces_req (some { limit := some 10 })).params =
      some [("limit", 10)]) ∧
    (∀ ns, ns ≠ "" →
      MAIAClient.list_namespace_memories_req ns options =
        .ok { method := "GET", path := "/v1/namespaces/" ++ pyQuote ns ++ "/memories",
              params := (MAIAClient.list_namespaces_req options).params }) := by
  refine ⟨?_, ?_, rfl, ?_⟩
  · intro h
    subst h
    rfl
  · intro o hob
    subst hob
    obtain ⟨lim, off⟩ := o
    rcases lim with _ | v
    · rcases off with _ | w
      · simp [getParam, MAIAClient.list_namespaces_req, MAIAClient.pageParams,
          MAIAClient.orNoneParams]
      · by_cases hw : w = 0 <;>
          simp [getParam, MAIAClient.list_namespaces_req, MAIAClient.pageParams,
            MAIAClient.orNoneParams, List.lookup, hw]
    · rcases off with _ | w
      · by_cases hv : v = 0 <;>
          simp [getParam, MAIAClient.list_namespaces_req, MAIAClient.pageParams,
            MAIAClient.orNoneParams, List.lookup, hv]
      · by_cases hv : v = 0 <;> by_cases hw : w = 0 <;>
          simp [getParam, MAIAClient.list_namespaces_req, MAIAClient.pageParams,
            MAIAClient.orNoneParams, List.lookup, hv, hw]
  · intro ns h
    simp [MAIAClient.list_namespace_memories_req, MAIAClient.list_namespaces_req, h]

/-- C6 witness: no options sends no parameters, only limit 10 sends only
limit 10, list_namespace_memories on a valid namespace uses the same
parameter construction. -/
theorem claim_C6_witness :
    (MAIAClient.list_namespaces_req none).params = none ∧
    getParam (MAIAClient.list_namespaces_req
        (some { limit := some 10, offset := none })).params "limit" = some 10 ∧
    MAIAClient.list_namespace_memories_req "default" none =
      .ok { method := "GET", path := "/v1/namespaces/" ++ pyQuote "default" ++ "/memories",
            params := (MAIAClient.list_namespaces_req none).params } :=
  ⟨(claim_C6 none).1 rfl,
   ((claim_C6 (some { limit := some 10, offset := none })).2.1 _ rfl).1,
   (claim_C6 none).2.2.2 "default" (by decide)⟩

set_option maxRecDepth 100000 in
set_option maxHeartbeats 1000000 in
/-- Helper: every character a quoted byte contributes is alphanumeric or one
of underscore, period, hyphen, tilde, percent. -/
lemma quoteByte_safe (b : UInt8) :
    ∀ c ∈ quoteByte b,
      c.isAlphanum = true ∨ c = '_' ∨ c = '.' ∨ c = '-' ∨ c = '~' ∨ c = '%' := by
  have h : ∀ n, n < 256 →
      ∀ c ∈ (if alwaysSafeByte n then [Char.ofNat n]
             else ['%', hexUpper (n / 16), hexUpper (n % 16)]),
        c.isAlphanum = true ∨ c = '_' ∨ c = '.' ∨ c = '-' ∨ c = '~' ∨ c = '%' := by
    decide
  exact h b.toNat (UInt8.toNat_lt b)

/-- Helper: every character pyQuote emits is alphanumeric or one of
underscore, period, hyphen, tilde, percent. -/
lemma pyQuote_chars (s : String) :
    ∀ c ∈ (pyQuote s).data,
      c.isAlphanum = true ∨ c = '_' ∨ c = '.' ∨ c = '-' ∨ c = '~' ∨ c = '%' := by
  intro c hc
  have hc1 : c ∈ s.data.flatMap fun ch => (String.utf8EncodeChar ch).flatMap quoteByte := hc
  rw [List.mem_flatMap] at hc1
  obtain ⟨ch, _, hc2⟩ := hc1
  rw [List.mem_flatMap] at hc2
  obtain ⟨b, _, hc3⟩ := hc2
  exact quoteByte_safe b c hc3

/-- Helper: a slash never survives pyQuote. -/
lemma pyQuote_no_slash (s : String) : '/' ∉ (pyQuote s).data := by
  intro h
  rcases pyQuote_chars s '/' h with h1 | h1 | h1 | h1 | h1 | h1 <;>
    exact absurd h1 (by decide)

/-- C7: every non-empty identifier is accepted (no format validation beyond
non-emptiness) and inserted into the URL path percent-encoded by pyQuote; the
encoded form consists only of unreserved characters and percent escapes, so
characters such as the slash never reach the path raw, and "a/b" encodes to
"a%2Fb". -/
theorem claim_C7 :
    (∀ id : String, id ≠ "" →
      MAIAClient.get_memory_req id =
        .ok { method := "GET", path := "/v1/memories/" ++ pyQuote id } ∧
      (∀ i, MAIAClient.update_memory_req id i =
        .ok { method := "PUT", path := "/v1/memories/" ++ pyQuote id,
              json := some i.model_dump }) ∧
      MAIAClient.delete_memory_req id =
        .ok { method := "DELETE", path := "/v1/memories/" ++ pyQuote id } ∧
      MAIAClient.get_namespace_req id =
        .ok { method := "GET", path := "/v1/namespaces/" ++ pyQuote id } ∧
      (∀ i, MAIAClient.update_namespace_req id i =
        .ok { method := "PUT", path := "/v1/namespaces/" ++ pyQuote id,
              json := some i.model_dump }) ∧
      MAIAClient.delete_namespace_req id =
        .ok { method := "DELETE", path := "/v1/namespaces/" ++ pyQuote id } ∧
      (∀ o, MAIAClient.list_namespace_memories_req id o =
        .ok { method := "GET", path := "/v1/namespaces/" ++ pyQuote id ++ "/memories",
              params := MAIAClient.orNoneParams (MAIAClient.pageParams o) })) ∧
    (∀ s, ∀ c ∈ (pyQuote s).data,
      c.isAlphanum = true ∨ c = '_' ∨ c = '.' ∨ c = '-' ∨ c = '~' ∨ c = '%') ∧
    (∀ s, '/' ∉ (pyQuote s).data) ∧
    pyQuote "a/b" = "a%2Fb" := by
  refine ⟨?_, pyQuote_chars, pyQuote_no_slash, rfl⟩
  intro id h
  refine ⟨?_, ?_, ?_, ?_, ?_, ?_, ?_⟩
  · simp [MAIAClient.get_memory_req, h]
  · intro i
    simp [MAIAClient.update_memory_req, h]
  · simp [MAIAClient.delete_memory_req, h]
  · simp [MAIAClient.get_namespace_req, h]
  · intro i
    simp [MAIAClient.update_namespace_req, h]
  · simp [MAIAClient.delete_namespace_req, h]
  · intro o
    simp [MAIAClient.list_namespace_memories_req, h]

/-- C7 witness: the slash-bearing identifier "a/b" is accepted, its encoded
form appears in the path, the percent sign it emits is in the allowed output
alphabet, and no slash survives encoding. -/
theorem claim_C7_witness :
    MAIAClient.get_memory_req "a/b" =
      .ok { method := "GET", path := "/v1/memories/" ++ pyQuote "a/b" } ∧
    ('%'.isAlphanum = true ∨ '%' = '_' ∨ '%' = '.' ∨ '%' = '-' ∨ '%' = '~' ∨ '%' = '%') ∧
    '/' ∉ (pyQuote "a/b").data :=
  ⟨(claim_C7.1 "a/b" (by decide)).1,
   claim_C7.2.1 "a/b" '%' (by decide),
   claim_C7.2.2.1 "a/b"⟩

/-- Helper: the keys of a JSON object (empty for non-objects). -/
def jkeys (j : Json) : List String :=
  match j with
  | .obj fields => fields.map Prod.fst
  | _ => []

/-- Helper: key membership in a dumped CreateMemoryInput. -/
lemma mem_keys_create_memory (i : CreateMemoryInput) (k : String) :
    k ∈ jkeys i.model_dump ↔
      k = "namespace" ∨ k = "content" ∨ (k = "type" ∧ i.type.isSome) ∨
      (k = "metadata" ∧ i.metadata.isSome) ∨ (k = "tags" ∧ i.tags.isSome) ∨
      (k = "confidence" ∧ i.confidence.isSome) ∨ (k = "source" ∧ i.source.isSome) := by
  obtain ⟨ns, ct, ty, md, tg, cf, sc⟩ := i
  cases ty <;> cases md <;> cases tg <;> cases cf <;> cases sc <;>
    simp [CreateMemoryInput.model_dump, optField, jkeys]

/-- Helper: key membership in a dumped UpdateMemoryInput. -/
lemma mem_keys_update_memory (i : UpdateMemoryInput) (k : String) :
    k ∈ jkeys i.model_dump ↔
      (k = "content" ∧ i.content.isSome) ∨ (k = "metadata" ∧ i.metadata.isSome) ∨
      (k = "tags" ∧ i.tags.isSome) ∨ (k = "confidence" ∧ i.confidence.isSome) := by
  obtain ⟨ct, md, tg, cf⟩ := i
  cases ct <;> cases md <;> cases tg <;> cases cf <;>
    simp [UpdateMemoryInput.model_dump, optField, jkeys]

/-- Helper: key membership in a dumped SearchMemoriesInput. -/
lemma mem_keys_search_memories (i : SearchMemoriesInput) (k : String) :
    k ∈ jkeys i.model_dump ↔
      (k = "query" ∧ i.query.isSome) ∨ (k = "namespace" ∧ i.«namespace».isSome) ∨
      (k = "types" ∧ i.types.isSome) ∨ (k = "tags" ∧ i.tags.isSome) ∨
      (k = "limit" ∧ i.limit.isSome) ∨ (k = "offset" ∧ i.offset.isSome) := by
  obtain ⟨q, ns, ty, tg, li, off⟩ := i
  cases q <;> cases ns <;> cases ty <;> cases tg <;> cases li <;> cases off <;>
    simp [SearchMemoriesInput.model_dump, optField, jkeys]

/-- Helper: key membership in a dumped CreateNamespaceInput. -/
lemma mem_keys_create_namespace (i : CreateNamespaceInput) (k : String) :
    k ∈ jkeys i.model_dump ↔
      k = "name" ∨ (k = "parent" ∧ i.parent.isSome) ∨
      (k = "template" ∧ i.template.isSome) ∨ (k = "config" ∧ i.config.isSome) := by
  obtain ⟨nm, pa, te, cf⟩ := i
  cases pa <;> cases te <;> cases cf <;>
    simp [CreateNamespaceInput.model_dump, optField, jkeys]

/-- Helper: key membership in a dumped NamespaceConfig (the nested model of
UpdateNamespaceInput; inherit_from_parent, never None, is always present). -/
lemma mem_keys_namespace_config (c : NamespaceConfig) (k : String) :
    k ∈ jkeys c.model_dump ↔
      (k = "token_budget" ∧ c.token_budget.isSome) ∨
      (k = "max_memories" ∧ c.max_memories.isSome) ∨
      (k = "retention_days" ∧ c.retention_days.isSome) ∨
      (k = "allowed_types" ∧ c.allowed_types.isSome) ∨
      k = "inherit_from_parent" ∨
      (k = "custom_scoring" ∧ c.custom_scoring.isSome) := by
  obtain ⟨tb, mm, rd, at', ih, cs⟩ := c
  cases tb <;> cases mm <;> cases rd <;> cases at' <;> cases cs <;>
    simp [NamespaceConfig.model_dump, optField, jkeys]

/-- Helper: key membership in a dumped GetContextInput. -/
lemma mem_keys_get_context (i : GetContextInput) (k : String) :
    k ∈ jkeys i.model_dump ↔
      k = "query" ∨ (k = "namespace" ∧ i.«namespace».isSome) ∨
      (k = "token_budget" ∧ i.token_budget.isSome) ∨
      (k = "system_prompt" ∧ i.system_prompt.isSome) ∨
      (k = "include_scores" ∧ i.include_scores.isSome) ∨
      (k = "min_score" ∧ i.min_score.isSome) := by
  obtain ⟨q, ns, tb, sp, ics, ms⟩ := i
  cases ns <;> cases tb <;> cases sp <;> cases ics <;> cases ms <;>
    simp [GetContextInput.model_dump, optField, jkeys]

/-- C9: for every request-carrying operation input, every unset optional
field is omitted entirely from the serialized body (its key is absent, not
serialized as null); for update_namespace this also holds inside the nested
config; and an absent search_memories input is sent as the serialization of
an all-defaults filter (the empty JSON object). -/
theorem claim_C9 :
    (∀ i : CreateMemoryInput,
      (i.type = none → "type" ∉ jkeys i.model_dump) ∧
      (i.metadata = none → "metadata" ∉ jkeys i.model_dump) ∧
      (i.tags = none → "tags" ∉ jkeys i.model_dump) ∧
      (i.confidence = none → "confidence" ∉ jkeys i.model_dump) ∧
      (i.source = none → "source" ∉ jkeys i.model_dump)) ∧
    (∀ i : UpdateMemoryInput,
      (i.content = none → "content" ∉ jkeys i.model_dump) ∧
      (i.metadata = none → "metadata" ∉ jkeys i.model_dump) ∧
      (i.tags = none → "tags" ∉ jkeys i.model_dump) ∧
      (i.confidence = none → "confidence" ∉ jkeys i.model_dump)) ∧
    (∀ i : SearchMemoriesInput,
      (i.query = none → "query" ∉ jkeys i.model_dump) ∧
      (i.«namespace» = none → "namespace" ∉ jkeys i.model_dump) ∧
      (i.types = none → "types" ∉ jkeys i.model_dump) ∧
      (i.tags = none → "tags" ∉ jkeys i.model_dump) ∧
      (i.limit = none → "limit" ∉ jkeys i.model_dump) ∧
      (i.offset = none → "offset" ∉ jkeys i.model_dump)) ∧
    (∀ i : CreateNamespaceInput,
      (i.parent = none → "parent" ∉ jkeys i.model_dump) ∧
      (i.template = none → "template" ∉ jkeys i.model_dump) ∧
      (i.config = none → "config" ∉ jkeys i.model_dump)) ∧
    (∀ i : UpdateNamespaceInput,
      (i.config.token_budget = none → "token_budget" ∉ jkeys i.config.model_dump) ∧
      (i.config.max_memories = none → "max_memories" ∉ jkeys i.config.model_dump) ∧
      (i.config.retention_days = none → "retention_days" ∉ jkeys i.config.model_dump) ∧
      (i.config.allowed_types = none → "allowed_types" ∉ jkeys i.config.model_dump) ∧
      (i.config.custom_scoring = none → "custom_scoring" ∉ jkeys i.config.model_dump)) ∧
    (∀ i : GetContextInput,
      (i.«namespace» = none → "namespace" ∉ jkeys i.model_dump) ∧
      (i.token_budget = none → "token_budget" ∉ jkeys i.model_dump) ∧
      (i.system_prompt = none → "system_prompt" ∉ jkeys i.model_dump) ∧
      (i.include_scores = none → "include_scores" ∉ jkeys i.model_dump) ∧
      (i.min_score = none → "min_score" ∉ jkeys i.model_dump)) ∧
    (∀ t : Transport,
      MAIAClient.search_memories t none =
        MAIAClient.search_memories t (some ({} : SearchMemoriesInput))) ∧
    (MAIAClient.search_memories_req none).json = some (Json.obj []) := by
  refine ⟨?_, ?_, ?_, ?_, ?_, ?_, fun _ => rfl, rfl⟩
  · intro i
    refine ⟨?_, ?_, ?_, ?_, ?_⟩ <;>
      (intro h; rw [mem_keys_create_memory]; simp [h])
  · intro i
    refine ⟨?_, ?_, ?_, ?_⟩ <;>
      (intro h; rw [mem_keys_update_memory]; simp [h])
  · intro i
    refine ⟨?_, ?_, ?_, ?_, ?_, ?_⟩ <;>
      (intro h; rw [mem_keys_search_memories]; simp [h])
  · intro i
    refine ⟨?_, ?_, ?_⟩ <;>
      (intro h; rw [mem_keys_create_namespace]; simp [h])
  · intro i
    refine ⟨?_, ?_, ?_, ?_, ?_⟩ <;>
      (intro h; rw [mem_keys_namespace_config]; simp [h])
  · intro i
    refine ⟨?_, ?_, ?_, ?_, ?_⟩ <;>
      (intro h; rw [mem_keys_get_context]; simp [h])

/-- C9 witness: on all-defaults inputs the optional keys are indeed absent,
and the absent search input serializes to the empty object. -/
theorem claim_C9_witness :
    "type" ∉ jkeys (CreateMemoryInput.model_dump { «namespace» := "n", content := "c" }) ∧
    "confidence" ∉ jkeys (UpdateMemoryInput.model_dump {}) ∧
    "limit" ∉ jkeys (SearchMemoriesInput.model_dump {}) ∧
    "config" ∉ jkeys (CreateNamespaceInput.model_dump { name := "n" }) ∧
    "token_budget" ∉ jkeys (NamespaceConfig.model_dump {}) ∧
    "min_score" ∉ jkeys (GetContextInput.model_dump { query := "q" }) ∧
    (MAIAClient.search_memories_req none).json = some (Json.obj []) :=
  ⟨(claim_C9.1 { «namespace» := "n", content := "c" }).1 rfl,
   (claim_C9.2.1 {}).2.2.2 rfl,
   (claim_C9.2.2.1 {}).2.2.2.2.1 rfl,
   (claim_C9.2.2.2.1 { name := "n" }).2.2 rfl,
   (claim_C9.2.2.2.2.1 { config := {} }).1 rfl,
   (claim_C9.2.2.2.2.2.1 { query := "q" }).2.2.2.2 rfl,
   claim_C9.2.2.2.2.2.2.2⟩

/-- C10: both constructors store the base URL with every trailing slash
removed: the stored value is a prefix of the input, the input is that value
followed only by slashes, the stored value itself never ends in a slash, and
the slash and no-slash spellings of the default URL construct identical
clients. -/
theorem claim_C10 (b : String) (tm : ℚ) (h : Option (List (String × String))) :
    (MAIAClient.init b tm h).base_url = pyRstripSlash b ∧
    (AsyncMAIAClient.init b tm h).base_url = pyRstripSlash b ∧
    (∃ k, b.data = (MAIAClient.init b tm h).base_url.data ++ List.replicate k '/') ∧
    ((MAIAClient.init b tm h).base_url.data.getLast? ≠ some '/') ∧
    MAIAClient.init "http://localhost:8080/" DEFAULT_TIMEOUT none =
      MAIAClient.init "http://localhost:8080" DEFAULT_TIMEOUT none ∧
    AsyncMAIAClient.init "http://localhost:8080/" DEFAULT_TIMEOUT none =
      AsyncMAIAClient.init "http://localhost:8080" DEFAULT_TIMEOUT none :=
  ⟨rfl, rfl, pyRstripSlash_spec b, pyRstripSlash_no_trailing b, by rfl, by rfl⟩

end Maia
